import Mathlib

set_option maxRecDepth 100000

namespace Invoice

/-! # Shallow embedding of the invoice-extraction engine

Embeds the extraction core of `generate_invoices.py` (header location, column
role mapping, metadata extraction, row classification and grand-total
computation) and the upload/storage path of `app.py` (exact-text header map,
stored grand total, record upsert).  Cells are modelled as pandas presents
them: absent (NaN), text, or a numeric value.  Numeric cells are exact
rationals: an abstraction of IEEE doubles; none of the verified properties
depend on binary rounding, and `float(str(x))` round-trips in Python, which
justifies parsing a numeric cell to itself.

Python string/float primitives (`strip`, `lower`, `in`, `split`, `float()`,
`"%.3f"`) are implemented here directly over character lists and
numerator/denominator pairs, so that every definition evaluates inside the
kernel. -/

/-- A spreadsheet cell: absent (NaN), a string, or a number. -/
inductive Cell where
  | absent
  | str (s : String)
  | num (q : Rat)
  deriving DecidableEq, Repr

/-- Python's `pd.notna` on a cell. -/
def Cell.present : Cell → Bool
  | .absent => false
  | _ => true

/-- ASCII whitespace stripped by Python's `str.strip()` (the further Unicode
space characters Python also strips do not occur in any tested value). -/
def isSpaceChar (c : Char) : Bool :=
  c == ' ' || c == '\t' || c == '\n' || c == '\r' || c == '\x0b' || c == '\x0c'

/-- Strip leading and trailing whitespace from a character list. -/
def trimChars (l : List Char) : List Char :=
  ((l.dropWhile isSpaceChar).reverse.dropWhile isSpaceChar).reverse

/-- Python `str.strip()`. -/
def pyStrip (s : String) : String :=
  ⟨trimChars s.data⟩

/-- ASCII lower-casing of one character (Python `str.lower()`; the inputs the
code lower-cases are ASCII labels or Arabic text, which has no case). -/
def lowerChar (c : Char) : Char :=
  if 65 ≤ c.toNat && c.toNat ≤ 90 then Char.ofNat (c.toNat + 32) else c

/-- Python `str.lower()`. -/
def pyLower (s : String) : String :=
  ⟨s.data.map lowerChar⟩

/-- List-level string prefix test (helper for the substring test). -/
def listPre : List Char → List Char → Bool
  | [], _ => true
  | _ :: _, [] => false
  | a :: as, b :: bs => a == b && listPre as bs

/-- List-level substring (infix) test. -/
def listInf (pat : List Char) : List Char → Bool
  | [] => pat.isEmpty
  | l@(_ :: t) => listPre pat l || listInf pat t

/-- Python's substring test `pat in s` (true for the empty pattern). -/
def strContains (s pat : String) : Bool :=
  listInf pat.data s.data

/-- One decimal digit as a character. -/
def digitChar : Nat → Char
  | 0 => '0' | 1 => '1' | 2 => '2' | 3 => '3' | 4 => '4'
  | 5 => '5' | 6 => '6' | 7 => '7' | 8 => '8' | _ => '9'

/-- Decimal digits of a natural number (fuel-driven). -/
def natReprAux : Nat → Nat → List Char
  | 0, _ => []
  | fuel + 1, n =>
    if n < 10 then [digitChar n]
    else natReprAux fuel (n / 10) ++ [digitChar (n % 10)]

/-- Decimal representation of a natural number. -/
def natRepr (n : Nat) : String :=
  ⟨natReprAux (n + 1) n⟩

/-- Decimal representation of an integer. -/
def intRepr : Int → String
  | .ofNat n => natRepr n
  | .negSucc n => "-" ++ natRepr (n + 1)

/-- Python `str()` of a float value.  Exact for integer-valued floats
(`str(100.0) = "100.0"`); for non-integers an abstraction (the exact repr of a
double is irrelevant to every property below: such a string contains only
digits, `-` and `/`, so it never matches any of the alphabetic key phrases or
role names the code tests for). -/
def pyFloatRepr (q : Rat) : String :=
  if q.den = 1 then intRepr q.num ++ ".0"
  else intRepr q.num ++ "/" ++ natRepr q.den

/-- Python `str()` of a raw cell; pandas renders NaN as `"nan"`. -/
def cell_py_str : Cell → String
  | .absent => "nan"
  | .str s => s
  | .num q => pyFloatRepr q

/-- The value returned by the source's `get_v` helper: either a string or a
number ("" when the column or the cell is absent). -/
inductive Val where
  | s (v : String)
  | n (q : Rat)
  deriving DecidableEq, Repr

/-- Python `str()` of such a value. -/
def Val.py_str : Val → String
  | .s v => v
  | .n q => pyFloatRepr q

/-- Python truthiness (`bool(x)`): empty string and numeric zero are falsy. -/
def Val.truthy : Val → Bool
  | .s v => v != ""
  | .n q => q != 0

/-- Python equality test `x == ""`: true only for the empty string. -/
def Val.eqEmptyStr : Val → Bool
  | .s v => v == ""
  | .n _ => false

/-- ASCII digit test. -/
def isDigitChar (c : Char) : Bool :=
  48 ≤ c.toNat && c.toNat ≤ 57

/-- Digit list to number (caller guarantees all characters are digits). -/
def digitsVal (l : List Char) : Nat :=
  l.foldl (fun a c => a * 10 + (c.toNat - 48)) 0

/-- Split a character list at every occurrence of `c` (Python `s.split(c)`:
`n` separators yield `n+1` pieces, empty pieces included). -/
def splitChars (c : Char) : List Char → List (List Char)
  | [] => [[]]
  | a :: rest =>
    let r := splitChars c rest
    if a == c then [] :: r
    else
      match r with
      | [] => [[a]]
      | h :: t => (a :: h) :: t

/-- Mantissa of a Python float literal: `digits`, `digits.digits`, `digits.`
or `.digits`. -/
def parseMantissaChars (m : List Char) : Option Rat :=
  match splitChars '.' m with
  | [a] =>
    if !a.isEmpty && a.all isDigitChar then some (mkRat (digitsVal a) 1) else none
  | [a, b] =>
    if a.all isDigitChar && b.all isDigitChar && !(a.isEmpty && b.isEmpty) then
      some (mkRat ((digitsVal a * 10 ^ b.length + digitsVal b : Nat) : Int) (10 ^ b.length))
    else none
  | _ => none

/-- Exponent of a Python float literal: optional sign, then digits. -/
def parseExpChars (e : List Char) : Option Int :=
  match e with
  | '-' :: r =>
    if !r.isEmpty && r.all isDigitChar then some (-(digitsVal r : Int)) else none
  | '+' :: r =>
    if !r.isEmpty && r.all isDigitChar then some ((digitsVal r : Int)) else none
  | r =>
    if !r.isEmpty && r.all isDigitChar then some ((digitsVal r : Int)) else none

/-- Apply a sign to a rational. -/
def applySign (sgn : Int) (q : Rat) : Rat :=
  mkRat (sgn * q.num) q.den

/-- Multiply a rational by `10^e` for an integer exponent `e`. -/
def scalePow10 (q : Rat) (e : Int) : Rat :=
  if 0 ≤ e then mkRat (q.num * ((10 ^ e.toNat : Nat) : Int)) q.den
  else mkRat q.num (q.den * 10 ^ (-e).toNat)

/-- Exact rational addition (Python float `+` on the exact values). -/
def qadd (a b : Rat) : Rat :=
  mkRat (a.num * (b.den : Int) + b.num * (a.den : Int)) (a.den * b.den)

/-- Python `float(s)`: optional surrounding whitespace, optional sign, decimal
mantissa, optional exponent.  `none` models the `ValueError` path.  `inf`/`nan`
literals (not representable in `Rat`) and non-ASCII digits are treated as
failures; no cell the properties below touch contains them. -/
def parsePyFloat (s : String) : Option Rat :=
  let l := trimChars s.data
  let sb : Int × List Char :=
    match l with
    | '-' :: r => (-1, r)
    | '+' :: r => (1, r)
    | _ => (1, l)
  match splitChars 'e' (sb.2.map lowerChar) with
  | [m] => (parseMantissaChars m).map (applySign sb.1)
  | [m, e] =>
    match parseMantissaChars m, parseExpChars e with
    | some q, some ex => some (scalePow10 (applySign sb.1 q) ex)
    | _, _ => none
  | _ => none

/-- Python `s.replace(',', '')`: delete every comma. -/
def removeCommas (s : String) : String :=
  ⟨s.data.filter fun c => !(c == ',')⟩

/-- The source's `float(str(x).replace(',',''))`.  A numeric value parses to
itself (`float(str(f)) == f` round-trips in Python; a float repr contains no
comma). -/
def Val.parseFloat : Val → Option Rat
  | .n q => some q
  | .s v => parsePyFloat (removeCommas v)

/-- The source's `try: float(...) except: 0.0` — parse with default `0.0`. -/
def parseD (v : Val) : Rat :=
  v.parseFloat.getD 0

/-- The source's `get_v`: cell at column `c`, or `""` when the column is
unmapped or the cell absent (rows in a DataFrame are uniform width, so the
out-of-bounds case also reads as absent). -/
def get_v (row : List Cell) : Option Nat → Val
  | none => .s ""
  | some c =>
    match row[c]? with
    | none => .s ""
    | some .absent => .s ""
    | some (.str s) => .s s
    | some (.num q) => .n q

/-- Nat to 3 zero-padded digits. -/
def pad3 (n : Nat) : String :=
  if n < 10 then "00" ++ natRepr n
  else if n < 100 then "0" ++ natRepr n
  else natRepr n

/-- Round to the nearest integer, ties to even (Python's float formatting),
computed on the numerator/denominator pair: for `q = n/d` the fractional part
is `(n - floor*d)/d`, compared against `1/2` by cross-multiplication. -/
def round_half_even (q : Rat) : Int :=
  let f := q.floor
  let rem2 := 2 * (q.num - f * (q.den : Int))
  if rem2 < (q.den : Int) then f
  else if (q.den : Int) < rem2 then f + 1
  else if f % 2 = 0 then f else f + 1

/-- Python `f"{x:.3f}"` on the exact value. -/
def fmt3 (q : Rat) : String :=
  let n := round_half_even (mkRat (q.num * 1000) q.den)
  let a := n.natAbs
  (if n < 0 then "-" else "") ++ natRepr (a / 1000) ++ "." ++ pad3 (a % 1000)

/-- The source's `fmt`: 3-decimal format for numbers, `str` for text. -/
def fmt : Val → String
  | .n q => fmt3 q
  | .s v => v

/-! ## Header locator and column role mapper (`create_invoice_pdf`) -/

/-- The comprehension `[str(x).lower().strip() for x in row.values if pd.notna(x)]`. -/
def header_vals (row : List Cell) : List String :=
  row.filterMap fun c =>
    if c.present then some (pyStrip (pyLower (cell_py_str c))) else none

/-- The test `'description' in vals and ('qty' in vals or 'unit' in vals)` — exact
membership, not substring. -/
def is_header_row (row : List Cell) : Bool :=
  (header_vals row).contains "description" &&
    ((header_vals row).contains "qty" || (header_vals row).contains "unit")

/-- First row index satisfying the header test (`for i, row ... break`). -/
def find_header_row : List (List Cell) → Option Nat
  | [] => none
  | r :: rest => if is_header_row r then some 0 else (find_header_row rest).map (· + 1)

/-- The `cols` dictionary of `create_invoice_pdf`. -/
structure Cols where
  description : Option Nat := none
  qty : Option Nat := none
  unit : Option Nat := none
  date : Option Nat := none
  total : Option Nat := none
  discount : Option Nat := none
  debit : List Nat := []
  credit : List Nat := []
  deriving DecidableEq, Repr

/-- One header cell's effect on `cols` — the source's `elif` chain (lines
215–222): first matching rule wins per cell; single roles are overwritten by a
later matching cell, Debit/Credit columns are appended in order. -/
def role_step (c : Cols) (idx : Nat) (cell : Cell) : Cols :=
  if cell.present then
    let v := pyLower (pyStrip (cell_py_str cell))
    if strContains v "description" then { c with description := some idx }
    else if strContains v "qty" then { c with qty := some idx }
    else if strContains v "unit" then { c with unit := some idx }
    else if strContains v "date" && !strContains v "admission" then { c with date := some idx }
    else if strContains v "total" && !strContains v "grand" then { c with total := some idx }
    else if strContains v "discount" then { c with discount := some idx }
    else if strContains v "debit" then { c with debit := c.debit ++ [idx] }
    else if strContains v "credit" then { c with credit := c.credit ++ [idx] }
    else c
  else c

/-- Enumeration `for col_idx, val in enumerate(row)` from a given starting index. -/
def map_cols_from (idx : Nat) (c : Cols) : List Cell → Cols
  | [] => c
  | cell :: rest => map_cols_from (idx + 1) (role_step c idx cell) rest

/-- Column role map of a header row. -/
def map_cols (row : List Cell) : Cols :=
  map_cols_from 0 {} row

/-- The source's `cols['Debit'][0] if len(cols['Debit']) > 0 else None`. -/
def col_p_debit (c : Cols) : Option Nat := c.debit[0]?

/-- First Credit column (Patient). -/
def col_p_credit (c : Cols) : Option Nat := c.credit[0]?

/-- Second Debit column (Insurer). -/
def col_i_debit (c : Cols) : Option Nat := c.debit[1]?

/-- Second Credit column (Insurer). -/
def col_i_credit (c : Cols) : Option Nat := c.credit[1]?

/-! ## Row classifier and table builder (`create_invoice_pdf`, lines 344–448) -/

/-- A classified table row as appended to `table_data` (string payloads are
the formatted cell texts; Arabic reshaping (`process_text`) is a rendering
concern and is not applied). -/
inductive LineItem where
  | item (desc qty unit date total discount p_debit p_credit i_debit i_credit : String)
  | categoryHeader (desc : String)
  | subtotal (desc total p_debit p_credit i_debit i_credit : String)
  deriving DecidableEq, Repr

/-- Effect of one data row on the scan. -/
inductive RowAction where
  | terminate (gtP gtI : Rat)
  | skip
  | emit (li : LineItem)
  deriving DecidableEq, Repr

/-- The source's `desc_raw = str(get_v(cols['Description'])).strip()`. -/
def desc_raw (cols : Cols) (row : List Cell) : String :=
  pyStrip (get_v row cols.description).py_str

/-- The source's `date_val = str(get_v(cols['Date'])).strip()`. -/
def date_val (cols : Cols) (row : List Cell) : String :=
  pyStrip (get_v row cols.date).py_str

/-- The test `'Grand Total' in desc_raw or 'Grand Total' in date_val`. -/
def is_grand_total_row (cols : Cols) (row : List Cell) : Bool :=
  strContains (desc_raw cols row) "Grand Total" ||
    strContains (date_val cols row) "Grand Total"

/-- Grand totals read off the terminator row (source lines 374–395): the
patient total is the parsed Total column, falling back to the sum of the
parsed Patient/Insurer Debit cells when that parse yields `0.0` (parse failure
included); the insurer total is always the parsed Insurer Debit cell. -/
def terminator_totals (cols : Cols) (row : List Cell) : Rat × Rat :=
  let overall := parseD (get_v row cols.total)
  let patient_portion := parseD (get_v row (col_p_debit cols))
  let insurer_portion := parseD (get_v row (col_i_debit cols))
  (if overall = 0 then qadd patient_portion insurer_portion else overall, insurer_portion)

/-- Classification of one data row, in the source's order: terminator test,
skip test, subtotal, category header, item. -/
def row_step (cols : Cols) (row : List Cell) : RowAction :=
  let dr := desc_raw cols row
  let qty := get_v row cols.qty
  let p_debit := get_v row (col_p_debit cols)
  let i_debit := get_v row (col_i_debit cols)
  if is_grand_total_row cols row then
    RowAction.terminate (terminator_totals cols row).1 (terminator_totals cols row).2
  else if dr == "" && !qty.truthy && !p_debit.truthy && !i_debit.truthy then
    RowAction.skip
  else if strContains (pyLower dr) "total" then
    RowAction.emit (.subtotal dr (fmt (get_v row cols.total)) (fmt p_debit)
      (fmt (get_v row (col_p_credit cols))) (fmt i_debit) (fmt (get_v row (col_i_credit cols))))
  else if dr != "" && qty.eqEmptyStr then
    RowAction.emit (.categoryHeader dr)
  else
    RowAction.emit (.item dr (fmt qty) (get_v row cols.unit).py_str (date_val cols row)
      (fmt (get_v row cols.total)) (fmt (get_v row cols.discount)) (fmt p_debit)
      (fmt (get_v row (col_p_credit cols))) (fmt i_debit) (fmt (get_v row (col_i_credit cols))))

/-- Output of the row scan: the emitted line items in row order and the two
grand totals (`grand_total_p`, `grand_total_i`, both initialized `0.0`). -/
structure ScanResult where
  items : List LineItem
  gtP : Rat
  gtI : Rat
  deriving DecidableEq, Repr

/-- The scan over the rows below the header (`for i in range(header_row_idx+1,
len(df))`): stops at the first terminator, skips spacer rows, emits classified
rows. -/
def scan_rows (cols : Cols) : List (List Cell) → ScanResult
  | [] => ⟨[], 0, 0⟩
  | row :: rest =>
    match row_step cols row with
    | .terminate p i => ⟨[], p, i⟩
    | .skip => scan_rows cols rest
    | .emit li =>
      let r := scan_rows cols rest
      ⟨li :: r.items, r.gtP, r.gtI⟩

/-- The extraction result of one sheet (the claim-relevant core of
`create_invoice_pdf`). -/
structure InvoiceTable where
  headerIdx : Nat
  cols : Cols
  items : List LineItem
  gtP : Rat
  gtI : Rat
  deriving DecidableEq, Repr

/-- Whole-sheet extraction: locate the header (building the role map from the
same row, as the source does inside the detection loop), then scan the rows
below it.  `none` models the `Skipping {sheet}` early return. -/
def create_invoice_table (rows : List (List Cell)) : Option InvoiceTable :=
  match find_header_row rows with
  | none => none
  | some i =>
    let cols := map_cols ((rows[i]?).getD [])
    let res := scan_rows cols (rows.drop (i + 1))
    some ⟨i, cols, res.items, res.gtP, res.gtI⟩

/-! ## Metadata extractor (`extract_metadata`, lines 83–184) -/

/-- Validity test of a candidate value cell inside the lookahead window:
`candidate and candidate.lower() != 'nan' and candidate.strip() != '' and
candidate.strip() != '-'`. -/
def valid_candidate (c : String) : Bool :=
  c != "" && pyLower c != "nan" && pyStrip c != "" && pyStrip c != "-"

/-- The lookahead: `for offset in range(1, 20)`, first in-bounds valid
candidate at columns `k+1 .. k+19`. -/
def window_scan (vals : List String) (k : Nat) : Option String :=
  (List.range' 1 19).findSome? fun off =>
    match vals[k + off]? with
    | some c => if valid_candidate c then some c else none
    | none => none

/-- The source's `any(key.lower() in cell_val.lower() for key in key_list)`. -/
def key_match (keys : List String) (cell : String) : Bool :=
  keys.any fun key => strContains (pyLower cell) (pyLower key)

/-- The source's `find_val`: scan cells left to right; at each cell matching a
key phrase run the lookahead window and return its first valid candidate.  (In
the source the window scan sits inside the per-key loop, but its result does
not depend on which key matched, so a second matching key on the same cell
re-scans the same window with the same outcome; an empty window falls through
to the next cell, which `findSome?` renders exactly.) -/
def find_val (keys : List String) (vals : List String) : Option String :=
  (List.range vals.length).findSome? fun k =>
    match vals[k]? with
    | some cell => if key_match keys cell then window_scan vals k else none
    | none => none

/-- The metadata dictionary: three always-present fields with built-in
defaults, and the optional fields (`'X' not in metadata` is `isNone`). -/
structure Metadata where
  hospital_name : String
  address : String
  vat_no : String
  patient_name : Option String := none
  invoice_no : Option String := none
  visit_no : Option String := none
  file_no : Option String := none
  physician : Option String := none
  admission_date : Option String := none
  discharge_date : Option String := none
  insurer : Option String := none
  nationality : Option String := none
  contract : Option String := none
  department : Option String := none
  deriving DecidableEq, Repr

/-- The defaults installed before the scan (lines 88–90). -/
def default_metadata : Metadata :=
  { hospital_name := "Andalusia Hospitals Smouha"
    address := "35 Bahaa El Din Ghatoury St, Smouha, Alexandria"
    vat_no := "202471187" }

/-- Patient Name step (set once; `if val:` requires a non-empty value). -/
def patient_name_step (m : Metadata) (vals : List String) : Metadata :=
  if m.patient_name.isNone then
    match find_val ["patient name", "اسم المريض"] vals with
    | some v => if v == "" then m else { m with patient_name := some v }
    | none => m
  else m

/-- Invoice No step with the label-as-value guard
(`if val and 'invoice' not in val.lower()`). -/
def invoice_no_step (m : Metadata) (vals : List String) : Metadata :=
  if m.invoice_no.isNone then
    match find_val ["invoice", "رقم الفاتورة"] vals with
    | some v =>
      if v != "" && !strContains (pyLower v) "invoice" then { m with invoice_no := some v }
      else m
    | none => m
  else m

/-- Visit No step. -/
def visit_no_step (m : Metadata) (vals : List String) : Metadata :=
  if m.visit_no.isNone then
    match find_val ["visit", "رقم الزيارة"] vals with
    | some v => if v == "" then m else { m with visit_no := some v }
    | none => m
  else m

/-- File No step. -/
def file_no_step (m : Metadata) (vals : List String) : Metadata :=
  if m.file_no.isNone then
    match find_val ["file no", "رقم الملف", "file number"] vals with
    | some v => if v == "" then m else { m with file_no := some v }
    | none => m
  else m

/-- Physician step. -/
def physician_step (m : Metadata) (vals : List String) : Metadata :=
  if m.physician.isNone then
    match find_val ["physician", "doctor", "الهيب"] vals with
    | some v => if v == "" then m else { m with physician := some v }
    | none => m
  else m

/-- Admission Date step. -/
def admission_date_step (m : Metadata) (vals : List String) : Metadata :=
  if m.admission_date.isNone then
    match find_val ["date of admission", "admission date", "تاريخ الدخول"] vals with
    | some v => if v == "" then m else { m with admission_date := some v }
    | none => m
  else m

/-- Discharge Date step. -/
def discharge_date_step (m : Metadata) (vals : List String) : Metadata :=
  if m.discharge_date.isNone then
    match find_val ["date of discharge", "discharge date", "تاريخ الخروج"] vals with
    | some v => if v == "" then m else { m with discharge_date := some v }
    | none => m
  else m

/-- Insurer step (`if val and val.lower() != 'patient'`). -/
def insurer_step (m : Metadata) (vals : List String) : Metadata :=
  if m.insurer.isNone then
    match find_val ["insurer", "المؤمن"] vals with
    | some v =>
      if v != "" && pyLower v != "patient" then { m with insurer := some v } else m
    | none => m
  else m

/-- Nationality step. -/
def nationality_step (m : Metadata) (vals : List String) : Metadata :=
  if m.nationality.isNone then
    match find_val ["nationality", "الجنسية"] vals with
    | some v => if v == "" then m else { m with nationality := some v }
    | none => m
  else m

/-- VAT No step: re-runs while the stored value is still the built-in default
(`metadata['VAT No'] == '202471187'`). -/
def vat_no_step (m : Metadata) (vals : List String) : Metadata :=
  if m.vat_no == "202471187" then
    match find_val ["vat no", "tax id", "registration no", "التسجيل الضريبي"] vals with
    | some v => if v == "" then m else { m with vat_no := v }
    | none => m
  else m

/-- Contract step. -/
def contract_step (m : Metadata) (vals : List String) : Metadata :=
  if m.contract.isNone then
    match find_val ["contract", "العقد"] vals with
    | some v => if v == "" then m else { m with contract := some v }
    | none => m
  else m

/-- Department step. -/
def department_step (m : Metadata) (vals : List String) : Metadata :=
  if m.department.isNone then
    match find_val ["department", "dept", "specialty", "القسم", "التخصص"] vals with
    | some v => if v == "" then m else { m with department := some v }
    | none => m
  else m

/-- One metadata row: the twelve field steps in source order. -/
def process_row (m : Metadata) (vals : List String) : Metadata :=
  department_step
    (contract_step
      (vat_no_step
        (nationality_step
          (insurer_step
            (discharge_date_step
              (admission_date_step
                (physician_step
                  (file_no_step
                    (visit_no_step
                      (invoice_no_step
                        (patient_name_step m vals) vals) vals) vals) vals) vals) vals) vals)
          vals) vals) vals) vals

/-- The conversion `row_vals = [str(x).strip() for x in row.values]` (NaN reads `"nan"`). -/
def row_strs (row : List Cell) : List String :=
  row.map fun c => pyStrip (cell_py_str c)

/-- The source's `extract_metadata(df, stop_row_idx)`: fold the field steps over the first
`stop` rows, starting from the defaults. -/
def extract_metadata (rows : List (List Cell)) (stop : Nat) : Metadata :=
  ((rows.take stop).map row_strs).foldl process_row default_metadata

/-! ## Upload/storage path (`app.py`, lines 211–304) -/

/-- Python dict assignment `d[k] = v`, with the dict modelled by its lookup
function (`header_map.get` is the only observation the upload path makes):
the later write to a key wins. -/
def dict_update (d : String → Option Nat) (k : String) (v : Nat) : String → Option Nat :=
  fun x => if x = k then some v else d x

/-- Assignment `header_map[str(val).strip()] = col_idx` over the enumerated header row. -/
def app_header_map_from (idx : Nat) (d : String → Option Nat) :
    List Cell → (String → Option Nat)
  | [] => d
  | c :: rest =>
    app_header_map_from (idx + 1)
      (if c.present then dict_update d (pyStrip (cell_py_str c)) idx else d) rest

/-- The upload path's exact-text header map (empty dict at the start). -/
def app_header_map (row : List Cell) : String → Option Nat :=
  app_header_map_from 0 (fun _ => none) row

/-- The upload path's grand-total scan: break at the first row whose Date or
Description text contains `Grand Total`, with the parse of the `Debit` column
(`0.0` on failure); `0.0` when no such row exists. -/
def app_grand_total_scan (c_desc c_net c_date : Option Nat) : List (List Cell) → Rat
  | [] => 0
  | row :: rest =>
    let desc := pyStrip (get_v row c_desc).py_str
    let datev := pyStrip (get_v row c_date).py_str
    if strContains datev "Grand Total" || strContains desc "Grand Total" then
      parseD (get_v row c_net)
    else app_grand_total_scan c_desc c_net c_date rest

/-- The `grand_total` stored with a record by the upload path, for a sheet
whose header is at `hidx`. -/
def app_grand_total (rows : List (List Cell)) (hidx : Nat) : Rat :=
  let hm := app_header_map ((rows[hidx]?).getD [])
  app_grand_total_scan (hm "Description") (hm "Debit") (hm "Date") (rows.drop (hidx + 1))

/-- A stored invoice record (the claim-relevant fields of `inv_record`). -/
structure InvRecord where
  id : String
  sheet_name : String
  grand_total : Rat
  deriving DecidableEq, Repr

/-- The derived id `f"{sheet}_{meta.get('Invoice No')}"` (Python prints a missing value as
`None`). -/
def mk_id (sheet : String) (invoice_no : Option String) : String :=
  sheet ++ "_" ++ invoice_no.getD "None"

/-- The store update (lines 296–299): drop any record with the same id, then
append the new one. -/
def upsert (db : List InvRecord) (rec : InvRecord) : List InvRecord :=
  (db.filter fun d => d.id != rec.id) ++ [rec]

/-! ## The concrete sheet of the end-to-end scenario (§8 of the spec) -/

/-- Header row `[Description, Qty, Unit, Date, Total, Discount, Debit, Credit,
Debit, Credit]`. -/
def ex_header : List Cell :=
  [.str "Description", .str "Qty", .str "Unit", .str "Date", .str "Total",
   .str "Discount", .str "Debit", .str "Credit", .str "Debit", .str "Credit"]

/-- Item row `[Room Fee, 1, Each, 2024-01-01, 100.000, 0, 80.000, 0, 20.000, 0]`
(numeric cells as spreadsheet numbers). -/
def ex_item : List Cell :=
  [.str "Room Fee", .num 1, .str "Each", .str "2024-01-01", .num 100,
   .num 0, .num 80, .num 0, .num 20, .num 0]

/-- Terminator row `[Grand Total, -, -, -, 100.000, -, 80.000, -, 20.000, -]`. -/
def ex_term : List Cell :=
  [.str "Grand Total", .str "-", .str "-", .str "-", .num 100,
   .str "-", .num 80, .str "-", .num 20, .str "-"]

/-- The three-row sheet of the end-to-end scenario. -/
def example_sheet : List (List Cell) := [ex_header, ex_item, ex_term]

/-! ## Properties of the row scan -/

lemma row_step_of_term (cols : Cols) (row : List Cell)
    (h : is_grand_total_row cols row = true) :
    row_step cols row
      = .terminate (terminator_totals cols row).1 (terminator_totals cols row).2 := by
  simp only [row_step, h, if_true]

lemma row_step_not_term (cols : Cols) (row : List Cell)
    (h : is_grand_total_row cols row = false) (p i : Rat) :
    row_step cols row ≠ .terminate p i := by
  simp only [row_step, h, Bool.false_eq_true, if_false]
  split
  · simp
  · split
    · simp
    · split <;> simp

lemma scan_rows_cons_term (cols : Cols) (row : List Cell) (rest : List (List Cell))
    (h : is_grand_total_row cols row = true) :
    scan_rows cols (row :: rest)
      = ⟨[], (terminator_totals cols row).1, (terminator_totals cols row).2⟩ := by
  simp [scan_rows, row_step_of_term cols row h]

lemma scan_rows_cons_eq (cols : Cols) (row : List Cell) {rest rest' : List (List Cell)}
    (hrec : scan_rows cols rest = scan_rows cols rest') :
    scan_rows cols (row :: rest) = scan_rows cols (row :: rest') := by
  simp only [scan_rows]
  cases row_step cols row <;> simp [hrec]

lemma scan_rows_cons_totals (cols : Cols) (row : List Cell) (l : List (List Cell))
    (h : is_grand_total_row cols row = false) :
    (scan_rows cols (row :: l)).gtP = (scan_rows cols l).gtP ∧
      (scan_rows cols (row :: l)).gtI = (scan_rows cols l).gtI := by
  cases hs : row_step cols row with
  | terminate p i => exact absurd hs (row_step_not_term cols row h p i)
  | skip => simp [scan_rows, hs]
  | emit li => simp [scan_rows, hs]

/-- C7: the row scan is absorbing at the first Grand-Total terminator row:
whatever rows follow it, the scan result (line items and both totals) is
unchanged — rows after the terminator are never read. -/
theorem claim7_terminator_absorbing (cols : Cols) (pre post post' : List (List Cell))
    (t : List Cell) (ht : is_grand_total_row cols t = true) :
    scan_rows cols (pre ++ t :: post) = scan_rows cols (pre ++ t :: post') := by
  induction pre with
  | nil =>
    simp only [List.nil_append]
    rw [scan_rows_cons_term cols t post ht, scan_rows_cons_term cols t post' ht]
  | cons r pre ih =>
    simpa only [List.cons_append] using scan_rows_cons_eq cols r ih

/-- C2: for every sheet, at the first row below the header whose Description
or Date text contains "Grand Total" the scan stops and reports: patient grand
total = the parsed Total-role cell, except that when that parse (defaulting to
0.0) yields zero it is the sum of the parsed Patient-Debit and Insurer-Debit
cells; insurer grand total = the parsed Insurer-Debit cell (0.0 on parse
failure). -/
theorem claim2_grand_totals (cols : Cols) (pre post : List (List Cell)) (t : List Cell)
    (hpre : (pre.all fun r => !is_grand_total_row cols r) = true)
    (ht : is_grand_total_row cols t = true) :
    (scan_rows cols (pre ++ t :: post)).gtP
        = (if parseD (get_v t cols.total) = 0
           then qadd (parseD (get_v t (col_p_debit cols))) (parseD (get_v t (col_i_debit cols)))
           else parseD (get_v t cols.total)) ∧
      (scan_rows cols (pre ++ t :: post)).gtI = parseD (get_v t (col_i_debit cols)) := by
  induction pre with
  | nil =>
    simp only [List.nil_append]
    rw [scan_rows_cons_term cols t post ht]
    exact ⟨rfl, rfl⟩
  | cons r pre ih =>
    simp only [List.all_cons, Bool.and_eq_true, Bool.not_eq_true'] at hpre
    obtain ⟨hr, hrest⟩ := hpre
    have h2 := scan_rows_cons_totals cols r (pre ++ t :: post) hr
    have ih' := ih hrest
    simp only [List.cons_append]
    exact ⟨h2.1.trans ih'.1, h2.2.trans ih'.2⟩

/-- C1 (counterexample): the claim's Patient grand total of 80.000 is wrong on
the spec's own end-to-end sheet — extraction returns 100.000, the parsed
Total-role column of the terminator row. -/
theorem claim1_counterexample :
    (create_invoice_table example_sheet).map InvoiceTable.gtP ≠ some 80 := by decide

/-- C1 (amended): for the concrete sheet with header row `[Description, Qty,
Unit, Date, Total, Discount, Debit, Credit, Debit, Credit]`, one item row and
the Grand-Total terminator row, extraction emits exactly one LineItem,
classified as Item, and the resulting grand totals are Patient = 100.000 (the
parsed Total-role cell of the terminator row, non-zero, so the debit-sum
fallback is not taken) and Insurer = 20.000. -/
theorem claim1_amended :
    create_invoice_table example_sheet = some
      { headerIdx := 0,
        cols := { description := some 0, qty := some 1, unit := some 2, date := some 3,
                  total := some 4, discount := some 5, debit := [6, 8], credit := [7, 9] },
        items := [LineItem.item "Room Fee" "1.000" "Each" "2024-01-01" "100.000" "0.000"
                    "80.000" "0.000" "20.000" "0.000"],
        gtP := 100, gtI := 20 } := by decide

/-- The structural kind of a classified row. -/
inductive RowClass where
  | skipped
  | subtotalC
  | categoryC
  | itemC
  | terminatorC
  deriving DecidableEq, Repr

/-- Kind of the action taken on a row. -/
def action_class : RowAction → RowClass
  | .terminate _ _ => .terminatorC
  | .skip => .skipped
  | .emit (.subtotal _ _ _ _ _ _) => .subtotalC
  | .emit (.categoryHeader _) => .categoryC
  | .emit (.item _ _ _ _ _ _ _ _ _ _) => .itemC

/-- The spec's skip/classification rules, stated in its own order: skip a row
with no description, falsy Qty and falsy Patient/Insurer Debit; else Subtotal
when the lower-cased description contains "total"; else CategoryHeader when a
description is present but the Qty cell reads as the empty string; else Item. -/
def classify_claim (cols : Cols) (row : List Cell) : RowClass :=
  if desc_raw cols row == "" && !(get_v row cols.qty).truthy
      && !(get_v row (col_p_debit cols)).truthy
      && !(get_v row (col_i_debit cols)).truthy then .skipped
  else if strContains (pyLower (desc_raw cols row)) "total" then .subtotalC
  else if desc_raw cols row != "" && (get_v row cols.qty).eqEmptyStr then .categoryC
  else .itemC

/-- C8: a non-terminator row is skipped exactly when it has no description, a
falsy Qty and falsy Patient- and Insurer-Debit values, and a skipped row
contributes no LineItem; every surviving row is classified, in order, as
Subtotal when its lower-cased description contains "total", as CategoryHeader
when a description is present but the Qty cell reads as the empty string, and
as Item otherwise. -/
theorem claim8_row_classification (cols : Cols) (row : List Cell) (rest : List (List Cell))
    (h : is_grand_total_row cols row = false) :
    action_class (row_step cols row) = classify_claim cols row ∧
      (classify_claim cols row = .skipped →
        scan_rows cols (row :: rest) = scan_rows cols rest) := by
  have hmain : action_class (row_step cols row) = classify_claim cols row := by
    simp only [row_step, classify_claim, h, Bool.false_eq_true, if_false]
    split_ifs <;> rfl
  refine ⟨hmain, fun hs => ?_⟩
  have h1 : action_class (row_step cols row) = .skipped := hmain.trans hs
  cases hstep : row_step cols row with
  | terminate p i => rw [hstep] at h1; exact absurd h1 (by simp [action_class])
  | skip => simp [scan_rows, hstep]
  | emit li => rw [hstep] at h1; cases li <;> simp [action_class] at h1

lemma find_header_row_none_iff (rows : List (List Cell)) :
    find_header_row rows = none ↔ (rows.all fun r => !is_header_row r) = true := by
  induction rows with
  | nil => simp [find_header_row]
  | cons r rest ih =>
    by_cases hr : is_header_row r
    · simp [find_header_row, hr]
    · simp [find_header_row, hr, ih]

lemma find_header_row_some_iff (rows : List (List Cell)) (i : Nat) :
    find_header_row rows = some i ↔
      ((rows[i]?).map is_header_row = some true ∧
        ((rows.take i).all fun r => !is_header_row r) = true) := by
  induction rows generalizing i with
  | nil => simp [find_header_row]
  | cons r rest ih =>
    by_cases hr : is_header_row r
    · cases i with
      | zero => simp [find_header_row, hr]
      | succ j => simp [find_header_row, hr, List.take_succ_cons]
    · cases i with
      | zero => simp [find_header_row, hr, Option.map_eq_some']
      | succ j => simp [find_header_row, hr, Option.map_eq_some', ih, List.take_succ_cons]

/-- C3: the header locator returns the smallest row index whose set of
lower-cased, trimmed, present cell values contains "description" together with
"qty" or "unit"; it returns none exactly when no row of the sheet qualifies,
and exactly in that case the sheet's extraction is skipped. -/
theorem claim3_header_locator (rows : List (List Cell)) (i : Nat) :
    (find_header_row rows = some i ↔
      ((rows[i]?).map is_header_row = some true ∧
        ((rows.take i).all fun r => !is_header_row r) = true)) ∧
    (find_header_row rows = none ↔ (rows.all fun r => !is_header_row r) = true) ∧
    (find_header_row rows = none ↔ create_invoice_table rows = none) := by
  refine ⟨find_header_row_some_iff rows i, find_header_row_none_iff rows, ?_⟩
  cases hf : find_header_row rows <;> simp [create_invoice_table, hf]

/-- Semantic role assigned to one header cell. -/
inductive ColRole where
  | descrR
  | qtyR
  | unitR
  | dateR
  | totalR
  | discountR
  | debitR
  | creditR
  deriving DecidableEq, Repr

/-- The role of one header cell's lower-cased trimmed text: the spec's
precedence chain, first matching rule wins. -/
def cell_role (v : String) : Option ColRole :=
  if strContains v "description" then some .descrR
  else if strContains v "qty" then some .qtyR
  else if strContains v "unit" then some .unitR
  else if strContains v "date" && !strContains v "admission" then some .dateR
  else if strContains v "total" && !strContains v "grand" then some .totalR
  else if strContains v "discount" then some .discountR
  else if strContains v "debit" then some .debitR
  else if strContains v "credit" then some .creditR
  else none

/-- Indices (in scan order, from a starting column) of the present cells whose
text is assigned the given role. -/
def role_indices (role : ColRole) : Nat → List Cell → List Nat
  | _, [] => []
  | idx, cell :: rest =>
    (if cell.present = true ∧ cell_role (pyLower (pyStrip (cell_py_str cell))) = some role
     then [idx] else []) ++ role_indices role (idx + 1) rest

lemma role_step_debit (c : Cols) (idx : Nat) (cell : Cell) :
    (role_step c idx cell).debit
      = c.debit ++
        (if cell.present = true ∧ cell_role (pyLower (pyStrip (cell_py_str cell))) = some .debitR
         then [idx] else []) := by
  by_cases hp : cell.present
  · simp only [role_step, cell_role, hp, if_true, true_and]
    split_ifs <;> simp_all
  · simp [role_step, hp]

lemma role_step_credit (c : Cols) (idx : Nat) (cell : Cell) :
    (role_step c idx cell).credit
      = c.credit ++
        (if cell.present = true ∧ cell_role (pyLower (pyStrip (cell_py_str cell))) = some .creditR
         then [idx] else []) := by
  by_cases hp : cell.present
  · simp only [role_step, cell_role, hp, if_true, true_and]
    split_ifs <;> simp_all
  · simp [role_step, hp]

lemma map_cols_from_debit (cells : List Cell) : ∀ (idx : Nat) (c : Cols),
    (map_cols_from idx c cells).debit = c.debit ++ role_indices .debitR idx cells := by
  induction cells with
  | nil => intro idx c; simp [map_cols_from, role_indices]
  | cons cell rest ih =>
    intro idx c
    simp only [map_cols_from, role_indices]
    rw [ih (idx + 1) (role_step c idx cell), role_step_debit, List.append_assoc]

lemma map_cols_from_credit (cells : List Cell) : ∀ (idx : Nat) (c : Cols),
    (map_cols_from idx c cells).credit = c.credit ++ role_indices .creditR idx cells := by
  induction cells with
  | nil => intro idx c; simp [map_cols_from, role_indices]
  | cons cell rest ih =>
    intro idx c
    simp only [map_cols_from, role_indices]
    rw [ih (idx + 1) (role_step c idx cell), role_step_credit, List.append_assoc]

/-- C4: every present header cell is assigned at most one role by the
first-match-wins precedence chain (description, qty, unit, date-not-admission,
total-not-grand, discount, debit, credit); the Debit and Credit role lists
collect their matching columns in scan order, Patient Debit/Credit are their
first entries and Insurer Debit/Credit their second; an absent role slot reads
as the empty value and renders blank; and on the two-Debit two-Credit example
header the first pair maps to Patient (columns 6, 7) and the second to Insurer
(columns 8, 9). -/
theorem claim4_column_roles (row drow : List Cell) :
    (map_cols row).debit = role_indices .debitR 0 row ∧
    (map_cols row).credit = role_indices .creditR 0 row ∧
    col_p_debit (map_cols row) = (role_indices .debitR 0 row)[0]? ∧
    col_i_debit (map_cols row) = (role_indices .debitR 0 row)[1]? ∧
    col_p_credit (map_cols row) = (role_indices .creditR 0 row)[0]? ∧
    col_i_credit (map_cols row) = (role_indices .creditR 0 row)[1]? ∧
    get_v drow none = Val.s "" ∧
    fmt (Val.s "") = "" ∧
    (map_cols ex_header).debit = [6, 8] ∧
    (map_cols ex_header).credit = [7, 9] ∧
    col_p_debit (map_cols ex_header) = some 6 ∧
    col_p_credit (map_cols ex_header) = some 7 ∧
    col_i_debit (map_cols ex_header) = some 8 ∧
    col_i_credit (map_cols ex_header) = some 9 := by
  have hd : (map_cols row).debit = role_indices .debitR 0 row := by
    rw [map_cols, map_cols_from_debit]; rfl
  have hc : (map_cols row).credit = role_indices .creditR 0 row := by
    rw [map_cols, map_cols_from_credit]; rfl
  refine ⟨hd, hc, ?_, ?_, ?_, ?_, rfl, rfl, by decide, by decide, by decide, by decide,
    by decide, by decide⟩
  · rw [col_p_debit, hd]
  · rw [col_i_debit, hd]
  · rw [col_p_credit, hc]
  · rw [col_i_credit, hc]

lemma findSome?_first {β : Type} (f : Nat → Option β) :
    ∀ (n s i : Nat) (b : β), s ≤ i → i < s + n → f i = some b →
      (∀ j, s ≤ j → j < i → f j = none) →
      (List.range' s n).findSome? f = some b := by
  intro n
  induction n with
  | zero => intro s i b h1 h2 h3 h4; omega
  | succ n ih =>
    intro s i b h1 h2 h3 h4
    rw [List.range'_succ]
    by_cases hsi : s = i
    · subst hsi
      rw [List.findSome?_cons, h3]
    · rw [List.findSome?_cons, h4 s le_rfl (by omega)]
      exact ih (s + 1) i b (by omega) (by omega) h3 (fun j hj1 hj2 => h4 j (by omega) hj2)

/-- C5: when the first key-phrase match of a metadata field is at column `k`,
the extractor scans exactly columns `k+1 .. k+19` and returns the first cell
there that is non-empty, not "nan" and not a lone "-"; concretely, the row
`["Invoice No", "", "", "12345"]` resolves Invoice No to "12345", the row
`["Invoice", "Invoice"]` leaves Invoice No unresolved because the candidate
value contains "invoice", and a value placed 20 cells after its label is never
found. -/
theorem claim5_lookahead (keys vals : List String) (k off : Nat) (cell c : String)
    (hk : vals[k]? = some cell)
    (hmatch : key_match keys cell = true)
    (hfirst : ∀ j, j < k → key_match keys (vals.getD j "") = false)
    (hoff1 : 1 ≤ off) (hoff19 : off ≤ 19)
    (hc : vals[k + off]? = some c)
    (hvalid : valid_candidate c = true)
    (hbefore : ∀ j, j < off → 1 ≤ j → valid_candidate (vals.getD (k + j) "nan") = false) :
    find_val keys vals = some c ∧
      window_scan vals k = some c ∧
      find_val ["invoice", "رقم الفاتورة"] ["Invoice No", "", "", "12345"] = some "12345" ∧
      (process_row default_metadata ["Invoice No", "", "", "12345"]).invoice_no = some "12345" ∧
      find_val ["invoice", "رقم الفاتورة"] ["Invoice", "Invoice"] = some "Invoice" ∧
      (process_row default_metadata ["Invoice", "Invoice"]).invoice_no = none ∧
      find_val ["invoice"] (["Invoice"] ++ List.replicate 19 "" ++ ["12345"]) = none := by
  have hwin : window_scan vals k = some c := by
    unfold window_scan
    apply findSome?_first _ 19 1 off c hoff1 (by omega) ?_ ?_
    · simp only [hc, hvalid, if_true]
    · intro j hj1 hj2
      cases hcj : vals[k + j]? with
      | none => simp [hcj]
      | some cj =>
        have hgd : vals.getD (k + j) "nan" = cj := by
          rw [List.getD_eq_getElem?_getD, hcj]; rfl
        have hv := hbefore j hj2 hj1
        rw [hgd] at hv
        simp [hcj, hv]
  have hfv : find_val keys vals = some c := by
    unfold find_val
    have hklen : k < vals.length := (List.getElem?_eq_some.mp hk).1
    rw [List.range_eq_range']
    apply findSome?_first _ vals.length 0 k c (Nat.zero_le k) (by omega) ?_ ?_
    · simp only [hk, hmatch, if_true, hwin]
    · intro j hj0 hjk
      cases hcj : vals[j]? with
      | none => simp [hcj]
      | some cj =>
        have hgd : vals.getD j "" = cj := by
          rw [List.getD_eq_getElem?_getD, hcj]; rfl
        have hm := hfirst j hjk
        rw [hgd] at hm
        simp [hcj, hm]
  exact ⟨hfv, hwin, by decide, by decide, by decide, by decide, by decide⟩

/-- The write-once invariant of the metadata scan: fields already holding a
value (and the constant defaults Hospital Name / Address) survive a scan step
unchanged; VAT No survives once it differs from the built-in default. -/
def Preserved (m m' : Metadata) : Prop :=
  m'.hospital_name = m.hospital_name ∧
  m'.address = m.address ∧
  (m.patient_name.isSome = true → m'.patient_name = m.patient_name) ∧
  (m.invoice_no.isSome = true → m'.invoice_no = m.invoice_no) ∧
  (m.visit_no.isSome = true → m'.visit_no = m.visit_no) ∧
  (m.file_no.isSome = true → m'.file_no = m.file_no) ∧
  (m.physician.isSome = true → m'.physician = m.physician) ∧
  (m.admission_date.isSome = true → m'.admission_date = m.admission_date) ∧
  (m.discharge_date.isSome = true → m'.discharge_date = m.discharge_date) ∧
  (m.insurer.isSome = true → m'.insurer = m.insurer) ∧
  (m.nationality.isSome = true → m'.nationality = m.nationality) ∧
  (m.contract.isSome = true → m'.contract = m.contract) ∧
  (m.department.isSome = true → m'.department = m.department) ∧
  (m.vat_no ≠ "202471187" → m'.vat_no = m.vat_no)

lemma preserved_refl (m : Metadata) : Preserved m m :=
  ⟨rfl, rfl, fun _ => rfl, fun _ => rfl, fun _ => rfl, fun _ => rfl, fun _ => rfl,
   fun _ => rfl, fun _ => rfl, fun _ => rfl, fun _ => rfl, fun _ => rfl, fun _ => rfl,
   fun _ => rfl⟩

lemma preserved_patient_name_step (m : Metadata) (vals : List String) :
    Preserved m (patient_name_step m vals) := by
  unfold Preserved patient_name_step
  (repeat' split) <;> simp_all

lemma preserved_vat_no_step (m : Metadata) (vals : List String) :
    Preserved m (vat_no_step m vals) := by
  unfold Preserved vat_no_step
  (repeat' split) <;> simp_all

lemma preserved_invoice_no_step (m : Metadata) (vals : List String) :
    Preserved m (invoice_no_step m vals) := by
  unfold Preserved invoice_no_step
  (repeat' split) <;> simp_all

lemma preserved_visit_no_step (m : Metadata) (vals : List String) :
    Preserved m (visit_no_step m vals) := by
  unfold Preserved visit_no_step
  (repeat' split) <;> simp_all

lemma preserved_file_no_step (m : Metadata) (vals : List String) :
    Preserved m (file_no_step m vals) := by
  unfold Preserved file_no_step
  (repeat' split) <;> simp_all

lemma preserved_physician_step (m : Metadata) (vals : List String) :
    Preserved m (physician_step m vals) := by
  unfold Preserved physician_step
  (repeat' split) <;> simp_all

lemma preserved_admission_date_step (m : Metadata) (vals : List String) :
    Preserved m (admission_date_step m vals) := by
  unfold Preserved admission_date_step
  (repeat' split) <;> simp_all

lemma preserved_discharge_date_step (m : Metadata) (vals : List String) :
    Preserved m (discharge_date_step m vals) := by
  unfold Preserved discharge_date_step
  (repeat' split) <;> simp_all

lemma preserved_insurer_step (m : Metadata) (vals : List String) :
    Preserved m (insurer_step m vals) := by
  unfold Preserved insurer_step
  (repeat' split) <;> simp_all

lemma preserved_nationality_step (m : Metadata) (vals : List String) :
    Preserved m (nationality_step m vals) := by
  unfold Preserved nationality_step
  (repeat' split) <;> simp_all

lemma preserved_contract_step (m : Metadata) (vals : List String) :
    Preserved m (contract_step m vals) := by
  unfold Preserved contract_step
  (repeat' split) <;> simp_all

lemma preserved_department_step (m : Metadata) (vals : List String) :
    Preserved m (department_step m vals) := by
  unfold Preserved department_step
  (repeat' split) <;> simp_all

lemma preserved_trans {a b c : Metadata} (h1 : Preserved a b) (h2 : Preserved b c) :
    Preserved a c := by
  obtain ⟨e1, e2, p3, p4, p5, p6, p7, p8, p9, p10, p11, p12, p13, p14⟩ := h1
  obtain ⟨f1, f2, q3, q4, q5, q6, q7, q8, q9, q10, q11, q12, q13, q14⟩ := h2
  refine ⟨f1.trans e1, f2.trans e2, ?_, ?_, ?_, ?_, ?_, ?_, ?_, ?_, ?_, ?_, ?_, ?_⟩
  · intro h; have hb := p3 h; rw [q3 (by rw [hb]; exact h), hb]
  · intro h; have hb := p4 h; rw [q4 (by rw [hb]; exact h), hb]
  · intro h; have hb := p5 h; rw [q5 (by rw [hb]; exact h), hb]
  · intro h; have hb := p6 h; rw [q6 (by rw [hb]; exact h), hb]
  · intro h; have hb := p7 h; rw [q7 (by rw [hb]; exact h), hb]
  · intro h; have hb := p8 h; rw [q8 (by rw [hb]; exact h), hb]
  · intro h; have hb := p9 h; rw [q9 (by rw [hb]; exact h), hb]
  · intro h; have hb := p10 h; rw [q10 (by rw [hb]; exact h), hb]
  · intro h; have hb := p11 h; rw [q11 (by rw [hb]; exact h), hb]
  · intro h; have hb := p12 h; rw [q12 (by rw [hb]; exact h), hb]
  · intro h; have hb := p13 h; rw [q13 (by rw [hb]; exact h), hb]
  · intro h; have hb := p14 h; rw [q14 (by rw [hb]; exact h), hb]

lemma preserved_process_row (m : Metadata) (vals : List String) :
    Preserved m (process_row m vals) := by
  unfold process_row
  exact preserved_trans (preserved_patient_name_step m vals) <|
    preserved_trans (preserved_invoice_no_step _ vals) <|
    preserved_trans (preserved_visit_no_step _ vals) <|
    preserved_trans (preserved_file_no_step _ vals) <|
    preserved_trans (preserved_physician_step _ vals) <|
    preserved_trans (preserved_admission_date_step _ vals) <|
    preserved_trans (preserved_discharge_date_step _ vals) <|
    preserved_trans (preserved_insurer_step _ vals) <|
    preserved_trans (preserved_nationality_step _ vals) <|
    preserved_trans (preserved_vat_no_step _ vals) <|
    preserved_trans (preserved_contract_step _ vals) <|
    preserved_department_step _ vals

lemma preserved_foldl (rows : List (List String)) :
    ∀ m : Metadata, Preserved m (rows.foldl process_row m) := by
  induction rows with
  | nil => intro m; exact preserved_refl m
  | cons r rest ih =>
    intro m
    exact preserved_trans (preserved_process_row m r) (ih (process_row m r))

/-- C6: throughout the metadata scan, every field other than VAT No, once
set, is never overwritten (the Hospital Name and Address defaults are never
touched at all), and VAT No is only overwritten while it still holds the
built-in default "202471187"; a later VAT match does overwrite the default,
after which the value is frozen. -/
theorem claim6_metadata_write_once (m : Metadata) (rows : List (List String))
    (crows : List (List Cell)) (stop : Nat) :
    Preserved m (rows.foldl process_row m) ∧
      Preserved default_metadata (extract_metadata crows stop) ∧
      (extract_metadata [[Cell.str "VAT No", Cell.str "999"],
          [Cell.str "VAT No", Cell.str "777"]] 2).vat_no = "999" ∧
      default_metadata.vat_no = "202471187" ∧
      ("999" : String) ≠ "202471187" :=
  ⟨preserved_foldl rows m, preserved_foldl _ default_metadata, by decide, by decide, by decide⟩


/-! ## C9: the record store -/

lemma filter_ne_map_id (db : List InvRecord) (x : String) :
    (db.filter fun d => d.id != x).map InvRecord.id
      = (db.map InvRecord.id).filter fun s => s != x := by
  induction db with
  | nil => rfl
  | cons d rest ih =>
    simp only [List.map_cons, List.filter_cons]
    cases h : d.id != x <;> simp [h, ih]

lemma upsert_ids (db : List InvRecord) (rec : InvRecord) :
    (upsert db rec).map InvRecord.id
      = ((db.map InvRecord.id).filter fun s => s != rec.id) ++ [rec.id] := by
  unfold upsert
  rw [List.map_append, filter_ne_map_id]
  rfl

/-- C9: the record store update keyed by `<sheet>_<Invoice No>` leaves
exactly one record carrying the stored id, preserves id-uniqueness of the
store, and re-processing a sheet with an already-stored id replaces the old
record rather than duplicating it. -/
theorem claim9_store_replacement (db : List InvRecord) (r1 r2 : InvRecord) :
    ((upsert db r1).map InvRecord.id).count r1.id = 1 ∧
      ((db.map InvRecord.id).Nodup → ((upsert db r1).map InvRecord.id).Nodup) ∧
      (r1.id = r2.id → upsert (upsert db r1) r2 = upsert db r2) ∧
      mk_id "Sheet1" (some "42") = "Sheet1_42" ∧
      mk_id "Sheet1" none = "Sheet1_None" := by
  have hnotmem : r1.id ∉ (db.map InvRecord.id).filter fun s => s != r1.id := by
    intro hmem
    have := (List.mem_filter.mp hmem).2
    simp at this
  refine ⟨?_, ?_, ?_, by decide, by decide⟩
  · rw [upsert_ids, List.count_append]
    rw [List.count_eq_zero.mpr hnotmem]
    simp
  · intro h
    rw [upsert_ids, List.nodup_append]
    exact ⟨h.filter _, List.nodup_singleton _,
      fun a ha hb => by
        rw [List.mem_singleton.mp hb] at ha
        exact hnotmem ha⟩
  · intro h
    unfold upsert
    rw [List.filter_append, List.filter_filter]
    have e1 : List.filter (fun d => d.id != r2.id) [r1] = [] := by
      simp [List.filter, h]
    have e2 : (fun (d : InvRecord) => d.id != r2.id && d.id != r1.id)
        = fun d => d.id != r2.id := by
      funext d
      rw [h]
      cases hd : d.id != r2.id <;> simp [hd]
    rw [e1, e2, List.append_nil]

/-! ## C10: the upload path's grand total -/

/-- Indices (in scan order) of the present header cells whose exact stripped
text equals `k`. -/
def key_indices (k : String) : Nat → List Cell → List Nat
  | _, [] => []
  | idx, c :: rest =>
    (if c.present = true ∧ pyStrip (cell_py_str c) = k then [idx] else []) ++
      key_indices k (idx + 1) rest

lemma getLast?_cons_or {α : Type} (a : α) (l : List α) :
    (a :: l).getLast? = l.getLast?.or (some a) := by
  induction l generalizing a with
  | nil => rfl
  | cons b t ih =>
    rw [List.getLast?_cons_cons, ih b, Option.or_assoc]
    rfl

lemma app_header_map_from_eq (cells : List Cell) : ∀ (idx : Nat) (d : String → Option Nat)
    (k : String), app_header_map_from idx d cells k = ((key_indices k idx cells).getLast?).or (d k) := by
  induction cells with
  | nil => intro idx d k; simp [app_header_map_from, key_indices]
  | cons c rest ih =>
    intro idx d k
    simp only [app_header_map_from, key_indices]
    by_cases hp : c.present = true
    · rw [if_pos hp]
      by_cases hk : pyStrip (cell_py_str c) = k
      · rw [if_pos ⟨hp, hk⟩, ih, List.cons_append, List.nil_append, getLast?_cons_or,
          Option.or_assoc]
        have h1 : dict_update d (pyStrip (cell_py_str c)) idx k = some idx := by
          simp [dict_update, hk]
        rw [h1]
        rfl
      · rw [if_neg (fun hc => hk hc.2), ih, List.nil_append]
        have h1 : dict_update d (pyStrip (cell_py_str c)) idx k = d k := by
          simp only [dict_update,
            if_neg (fun he : k = pyStrip (cell_py_str c) => hk he.symm)]
        rw [h1]
    · rw [if_neg hp, if_neg (fun hc => hp hc.1), List.nil_append]
      exact ih (idx + 1) d k

lemma app_scan_no_term (cdesc cnet cdate : Option Nat) (rows : List (List Cell))
    (hnone : (rows.all fun r =>
        !(strContains (pyStrip (get_v r cdate).py_str) "Grand Total" ||
          strContains (pyStrip (get_v r cdesc).py_str) "Grand Total")) = true) :
    app_grand_total_scan cdesc cnet cdate rows = 0 := by
  induction rows with
  | nil => rfl
  | cons r rest ih =>
    simp only [List.all_cons, Bool.and_eq_true, Bool.not_eq_true'] at hnone
    obtain ⟨hr, hrest⟩ := hnone
    simp only [app_grand_total_scan, hr, Bool.false_eq_true, if_false]
    exact ih (by simpa using hrest)

/-- C10: the upload path's header map is keyed by exact stripped cell text,
so a later duplicate column label overwrites an earlier one (the lookup
returns the last matching column index); with no terminator row the stored
grand_total is 0.0 (as it is on parse failure); and on the two-Debit example
sheet the stored grand_total is 20 — the insurer portion, read from the last
"Debit" column — while the PDF pass computes Patient = 100 and Insurer = 20
over the same sheet. -/
theorem claim10_app_grand_total (row : List Cell) (k : String)
    (rows : List (List Cell)) (cdesc cnet cdate : Option Nat)
    (hnone : (rows.all fun r =>
        !(strContains (pyStrip (get_v r cdate).py_str) "Grand Total" ||
          strContains (pyStrip (get_v r cdesc).py_str) "Grand Total")) = true) :
    app_header_map row k = (key_indices k 0 row).getLast? ∧
      app_grand_total_scan cdesc cnet cdate rows = 0 ∧
      app_grand_total example_sheet 0 = 20 ∧
      (create_invoice_table example_sheet).map InvoiceTable.gtP = some 100 ∧
      (create_invoice_table example_sheet).map InvoiceTable.gtI = some 20 ∧
      app_header_map ex_header "Debit" = some 8 ∧
      (map_cols ex_header).debit = [6, 8] ∧
      ((20 : Rat) ≠ 100) ∧
      parseD (Val.s "-") = 0 := by
  refine ⟨?_, app_scan_no_term cdesc cnet cdate rows hnone, by decide, by decide, by decide,
    by decide, by decide, by decide, by decide⟩
  rw [app_header_map, app_header_map_from_eq]
  simp [Option.or_none]

/-! ## Witnesses: each parameterized claim instantiated at a concrete input -/

theorem claim2_grand_totals_witness :
    (([ex_item].all fun r => !is_grand_total_row (map_cols ex_header) r) = true) ∧
      (is_grand_total_row (map_cols ex_header) ex_term = true) ∧
      ((scan_rows (map_cols ex_header) ([ex_item] ++ ex_term :: [])).gtP
          = (if parseD (get_v ex_term (map_cols ex_header).total) = 0
             then qadd (parseD (get_v ex_term (col_p_debit (map_cols ex_header))))
               (parseD (get_v ex_term (col_i_debit (map_cols ex_header))))
             else parseD (get_v ex_term (map_cols ex_header).total)) ∧
        (scan_rows (map_cols ex_header) ([ex_item] ++ ex_term :: [])).gtI
          = parseD (get_v ex_term (col_i_debit (map_cols ex_header)))) :=
  ⟨by decide, by decide,
    claim2_grand_totals (map_cols ex_header) [ex_item] [] ex_term (by decide) (by decide)⟩

theorem claim3_header_locator_witness :
    (find_header_row example_sheet = some 0 ↔
      ((example_sheet[0]?).map is_header_row = some true ∧
        ((example_sheet.take 0).all fun r => !is_header_row r) = true)) ∧
      (find_header_row example_sheet = none ↔
        (example_sheet.all fun r => !is_header_row r) = true) ∧
      (find_header_row example_sheet = none ↔ create_invoice_table example_sheet = none) :=
  claim3_header_locator example_sheet 0

theorem claim4_column_roles_witness :
    (map_cols ex_header).debit = role_indices .debitR 0 ex_header ∧
      (map_cols ex_header).credit = role_indices .creditR 0 ex_header ∧
      col_p_debit (map_cols ex_header) = (role_indices .debitR 0 ex_header)[0]? ∧
      col_i_debit (map_cols ex_header) = (role_indices .debitR 0 ex_header)[1]? ∧
      col_p_credit (map_cols ex_header) = (role_indices .creditR 0 ex_header)[0]? ∧
      col_i_credit (map_cols ex_header) = (role_indices .creditR 0 ex_header)[1]? ∧
      get_v ex_item none = Val.s "" ∧
      fmt (Val.s "") = "" ∧
      (map_cols ex_header).debit = [6, 8] ∧
      (map_cols ex_header).credit = [7, 9] ∧
      col_p_debit (map_cols ex_header) = some 6 ∧
      col_p_credit (map_cols ex_header) = some 7 ∧
      col_i_debit (map_cols ex_header) = some 8 ∧
      col_i_credit (map_cols ex_header) = some 9 :=
  claim4_column_roles ex_header ex_item

theorem claim5_lookahead_witness :
    ((["Invoice No", "", "", "12345"] : List String)[0]? = some "Invoice No") ∧
      (key_match ["invoice", "رقم الفاتورة"] "Invoice No" = true) ∧
      (∀ j, j < 0 → key_match ["invoice", "رقم الفاتورة"]
          ((["Invoice No", "", "", "12345"] : List String).getD j "") = false) ∧
      (1 ≤ 3 ∧ (3 : Nat) ≤ 19) ∧
      ((["Invoice No", "", "", "12345"] : List String)[0 + 3]? = some "12345") ∧
      (valid_candidate "12345" = true) ∧
      (∀ j, j < 3 → 1 ≤ j → valid_candidate
          ((["Invoice No", "", "", "12345"] : List String).getD (0 + j) "nan") = false) ∧
      find_val ["invoice", "رقم الفاتورة"] ["Invoice No", "", "", "12345"] = some "12345" :=
  ⟨by decide, by decide, by decide, by decide, by decide, by decide, by decide,
    (claim5_lookahead ["invoice", "رقم الفاتورة"] ["Invoice No", "", "", "12345"]
      0 3 "Invoice No" "12345" (by decide) (by decide) (by decide) (by decide) (by decide)
      (by decide) (by decide) (by decide)).1⟩

theorem claim6_metadata_write_once_witness :
    Preserved default_metadata (([] : List (List String)).foldl process_row default_metadata) ∧
      Preserved default_metadata (extract_metadata ([] : List (List Cell)) 0) ∧
      (extract_metadata [[Cell.str "VAT No", Cell.str "999"],
          [Cell.str "VAT No", Cell.str "777"]] 2).vat_no = "999" ∧
      default_metadata.vat_no = "202471187" ∧
      ("999" : String) ≠ "202471187" :=
  claim6_metadata_write_once default_metadata [] [] 0

theorem claim7_terminator_absorbing_witness :
    (is_grand_total_row (map_cols ex_header) ex_term = true) ∧
      scan_rows (map_cols ex_header) ([ex_item] ++ ex_term :: [ex_item])
        = scan_rows (map_cols ex_header) ([ex_item] ++ ex_term :: []) :=
  ⟨by decide,
    claim7_terminator_absorbing (map_cols ex_header) [ex_item] [ex_item] [] ex_term (by decide)⟩

theorem claim8_row_classification_witness :
    (is_grand_total_row (map_cols ex_header) ex_item = false) ∧
      (action_class (row_step (map_cols ex_header) ex_item)
          = classify_claim (map_cols ex_header) ex_item ∧
        (classify_claim (map_cols ex_header) ex_item = .skipped →
          scan_rows (map_cols ex_header) (ex_item :: [])
            = scan_rows (map_cols ex_header) [])) :=
  ⟨by decide, claim8_row_classification (map_cols ex_header) ex_item [] (by decide)⟩

/-- Concrete stored records used by the store-replacement witness. -/
def rec_a : InvRecord := ⟨"A_1", "A", 5⟩

/-- A record with the same id as `rec_a` but a different payload. -/
def rec_b : InvRecord := ⟨"A_1", "A", 7⟩

/-- A third record with the same id. -/
def rec_c : InvRecord := ⟨"A_1", "A", 9⟩

theorem claim9_store_replacement_witness :
    ((upsert [rec_a] rec_b).map InvRecord.id).count rec_b.id = 1 ∧
      (([rec_a].map InvRecord.id).Nodup → ((upsert [rec_a] rec_b).map InvRecord.id).Nodup) ∧
      (rec_b.id = rec_c.id → upsert (upsert [rec_a] rec_b) rec_c = upsert [rec_a] rec_c) ∧
      mk_id "Sheet1" (some "42") = "Sheet1_42" ∧
      mk_id "Sheet1" none = "Sheet1_None" :=
  claim9_store_replacement [rec_a] rec_b rec_c

theorem claim10_app_grand_total_witness :
    (([ex_item].all fun r =>
        !(strContains (pyStrip (get_v r (some 3)).py_str) "Grand Total" ||
          strContains (pyStrip (get_v r (some 0)).py_str) "Grand Total")) = true) ∧
      app_header_map ex_header "Debit" = (key_indices "Debit" 0 ex_header).getLast? ∧
      app_grand_total_scan (some 0) (some 8) (some 3) [ex_item] = 0 :=
  ⟨by decide,
    (claim10_app_grand_total ex_header "Debit" [ex_item] (some 0) (some 8)
      (some 3) (by decide)).1,
    (claim10_app_grand_total ex_header "Debit" [ex_item] (some 0) (some 8)
      (some 3) (by decide)).2.1⟩

end Invoice
